import Mathlib

/-!
Verification of the n8n-python-sdk workflow model.

This file is a shallow embedding of the repository's core
(`n8n_python_sdk/node.py`, `n8n_python_sdk/workflow.py`,
`n8n_python_sdk/utils/json_parser.py`) into Lean 4, together with proofs
about the embedded definitions.

Modelling conventions:
* Python `str.strip()` is modelled by `pyStrip` (removes leading and
  trailing whitespace characters).
* Python dictionaries are modelled by association lists (`alookup` for
  reads, `aset` for item assignment: replace the first binding in place,
  or append a new binding at the end — the semantics of CPython dicts,
  which preserve insertion order).
* Random UUID generation (`uuid.uuid4()`) and clock reads
  (`datetime.now().isoformat()`) are modelled by explicit `fresh` / `now`
  string parameters threaded into the operations; a UUID string is never
  empty, which appears as `fresh ≠ ""` hypotheses where needed.
* Raising an exception is modelled by returning `Except.error`; the
  operations are otherwise pure state transformers on the `Workflow`
  record (so a failed call trivially leaves the caller's workflow value
  unchanged).
* Log events matter to one claim only (a duplicate-name `add_node`
  records a warning); `add_node` therefore also returns its log events.
  Logging elsewhere has no effect on control flow and is not modelled.
-/

namespace N8n

/-! ## Python `str.strip()` -/

/-- Remove leading and trailing whitespace from a character list,
as Python `str.strip()` does. -/
def stripChars (l : List Char) : List Char :=
  ((l.dropWhile Char.isWhitespace).reverse.dropWhile Char.isWhitespace).reverse

/-- Python `s.strip()`. -/
def pyStrip (s : String) : String :=
  String.mk (stripChars s.data)

theorem dropWhile_dropWhile (p : Char → Bool) (l : List Char) :
    (l.dropWhile p).dropWhile p = l.dropWhile p := by
  induction l with
  | nil => rfl
  | cons a l ih =>
    by_cases h : p a
    · simp [List.dropWhile_cons, h, ih]
    · simp [List.dropWhile_cons, h]

theorem dropWhile_suffix_decomp (p : Char → Bool) (l : List Char) :
    ∃ t, t ++ l.dropWhile p = l := by
  induction l with
  | nil => exact ⟨[], rfl⟩
  | cons a l ih =>
    by_cases h : p a
    · obtain ⟨t, ht⟩ := ih
      exact ⟨a :: t, by simp [List.dropWhile_cons, h, ht]⟩
    · exact ⟨[], by simp [List.dropWhile_cons, h]⟩

theorem length_dropWhile_le' (p : Char → Bool) (l : List Char) :
    (l.dropWhile p).length ≤ l.length := by
  induction l with
  | nil => simp
  | cons a l ih =>
    by_cases h : p a
    · simp only [List.dropWhile_cons, h, if_true]
      exact Nat.le_succ_of_le ih
    · simp [List.dropWhile_cons, h]

theorem dropWhile_eq_self_of_fixed (p : Char → Bool) (l m r : List Char)
    (hfix : l.dropWhile p = l) (hdec : m ++ r = l) :
    m.dropWhile p = m := by
  cases m with
  | nil => rfl
  | cons a m' =>
    have hl : l = a :: (m' ++ r) := by simp [← hdec]
    have ha : ¬ p a := by
      intro hpa
      have h1 : (a :: (m' ++ r)).dropWhile p = (m' ++ r).dropWhile p := by
        simp [List.dropWhile_cons, hpa]
      have h2 : (m' ++ r).dropWhile p = a :: (m' ++ r) := by
        rw [← h1, ← hl, hfix, hl]
      have hle := length_dropWhile_le' p (m' ++ r)
      rw [h2] at hle
      simp at hle
    simp [List.dropWhile_cons, ha]

theorem stripChars_idem (l : List Char) :
    stripChars (stripChars l) = stripChars l := by
  unfold stripChars
  set p := Char.isWhitespace with hp
  set l1 := l.dropWhile p with hl1
  set m := (l1.reverse.dropWhile p).reverse with hm
  -- `m` (i.e. `stripChars l`) is already left-trimmed:
  have hfix : l1.dropWhile p = l1 := dropWhile_dropWhile p l
  have hmfix : m.dropWhile p = m := by
    obtain ⟨t, ht⟩ := dropWhile_suffix_decomp p l1.reverse
    have hdec : m ++ t.reverse = l1 := by
      have := congrArg List.reverse ht
      simpa [hm] using this
    exact dropWhile_eq_self_of_fixed p l1 m t.reverse hfix hdec
  -- and already right-trimmed:
  have hrev : m.reverse.dropWhile p = m.reverse := by
    have : m.reverse = l1.reverse.dropWhile p := by simp [hm]
    rw [this]
    exact dropWhile_dropWhile p l1.reverse
  rw [hmfix, hrev]
  simp

theorem pyStrip_idem (s : String) : pyStrip (pyStrip s) = pyStrip s := by
  unfold pyStrip
  exact congrArg String.mk (stripChars_idem s.data)

/-! ## JSON values and Python dictionaries -/

/-- A parsed JSON value (the result of Python's `json.loads`).  Objects
keep their keys in insertion order, as CPython dictionaries do. -/
inductive JValue where
  | null
  | bool (b : Bool)
  | num (n : Int)
  | str (s : String)
  | arr (xs : List JValue)
  | obj (fields : List (String × JValue))

/-- An opaque Python `dict` payload (`parameters`, `credentials`,
`settings`): string keys mapping to JSON-compatible values. -/
abbrev JDict := List (String × JValue)

/-- `d.get(k)` / `k in d` on a Python dict modelled as an association
list: the first binding for the key, if any. -/
def alookup (k : String) : List (String × α) → Option α
  | [] => none
  | (k', v) :: rest => if k' == k then some v else alookup k rest

/-- `d[k] = v` on a Python dict: replace the binding in place when the
key is present, otherwise append a new binding at the end. -/
def aset (k : String) (v : α) : List (String × α) → List (String × α)
  | [] => [(k, v)]
  | (k', v') :: rest => if k' == k then (k, v) :: rest else (k', v') :: aset k v rest

theorem alookup_aset_self (k : String) (v : α) (l : List (String × α)) :
    alookup k (aset k v l) = some v := by
  induction l with
  | nil => simp [aset, alookup]
  | cons kv rest ih =>
    obtain ⟨k', v'⟩ := kv
    by_cases h : k' = k
    · simp [aset, alookup, h]
    · simp [aset, alookup, h, ih]

theorem alookup_aset_ne (k k' : String) (v : α) (l : List (String × α))
    (h : k' ≠ k) : alookup k' (aset k v l) = alookup k' l := by
  induction l with
  | nil => simp [aset, alookup, Ne.symm h]
  | cons kv rest ih =>
    obtain ⟨k0, v0⟩ := kv
    by_cases h0 : k0 = k
    · subst h0
      simp [aset, alookup, Ne.symm h]
    · simp [aset, alookup, h0, ih]

theorem alookup_aset_isSome (k k' : String) (v : α) (l : List (String × α))
    (h : (alookup k' l).isSome) : (alookup k' (aset k v l)).isSome := by
  by_cases hk : k' = k
  · subst hk
    simp [alookup_aset_self]
  · rwa [alookup_aset_ne k k' v l hk]

/-! ## Exceptions and error codes (`exceptions.py`) -/

/-- The SDK exception classes raised by the embedded operations. -/
inductive ExcClass where
  | workflowError
  | nodeError
  | validationError
  | exportError
  deriving DecidableEq, Repr

/-- An SDK exception value: class, message and optional machine-readable
code (`SDKError.__init__`). -/
structure SDKError where
  cls : ExcClass
  message : String
  code : Option String
  deriving DecidableEq, Repr

/-- `SDKError.__str__`. -/
def SDKError.str (e : SDKError) : String :=
  match e.code with
  | some c => "[" ++ c ++ "] " ++ e.message
  | none => e.message

-- Error-code constants (`class ErrorCodes` in exceptions.py).
namespace ErrorCodes

def WORKFLOW_INVALID_NAME : String := "WF001"

def WORKFLOW_DUPLICATE_NODE : String := "WF003"

def NODE_INVALID_TYPE : String := "ND001"

def NODE_MISSING_REQUIRED_FIELD : String := "ND003"

def CONNECTION_SOURCE_NOT_FOUND : String := "CN001"

def CONNECTION_TARGET_NOT_FOUND : String := "CN002"

def EXPORT_FILE_ERROR : String := "EX001"

def EXPORT_SERIALIZATION_ERROR : String := "EX002"

def EXPORT_VALIDATION_ERROR : String := "EX003"

end ErrorCodes

/-- A diagnostic log level. -/
inductive LogLevel where
  | error
  | warning
  | info
  | debug
  deriving DecidableEq, Repr

/-- A recorded diagnostic event. -/
structure LogEvent where
  level : LogLevel
  msg : String
  deriving DecidableEq, Repr

/-! ## Node (`node.py`) -/

/-- The in-memory node object (`class Node`).  The field types follow the
annotations and actual use in the source: `type_version` is numeric
(modelled as `Int`), `position` a list of numeric coordinates, and
`parameters`/`credentials` opaque dictionaries. -/
structure Node where
  id : String
  type : String
  name : String
  type_version : Int
  parameters : JDict
  position : List Int
  credentials : JDict

/-- `Node.__eq__`: equality is decided by `id` alone. -/
def Node.eq (a b : Node) : Bool :=
  a.id == b.id

instance : BEq Node := ⟨Node.eq⟩

/-- Python's `x in nodes` on a list: `__eq__` against each element, i.e.
id-based comparison. -/
def nodeElem (a : Node) : List Node → Bool
  | [] => false
  | b :: rest => a == b || nodeElem a rest

theorem nodeElem_iff (a : Node) (ns : List Node) :
    nodeElem a ns = true ↔ ∃ m ∈ ns, m.id = a.id := by
  induction ns with
  | nil => simp [nodeElem]
  | cons b rest ih =>
    have hab : (a == b) = true ↔ a.id = b.id := by
      simp [BEq.beq, Node.eq]
    simp only [nodeElem, Bool.or_eq_true, ih, hab]
    constructor
    · rintro (h | ⟨m, hm, hid⟩)
      · exact ⟨b, by simp, h.symm⟩
      · exact ⟨m, by simp [hm], hid⟩
    · rintro ⟨m, hm, hid⟩
      rcases List.mem_cons.mp hm with hm | hm
      · subst hm
        exact Or.inl hid.symm
      · exact Or.inr ⟨m, hm, hid⟩

/-- `Node.__init__`.  `fresh` models the `str(uuid.uuid4())` drawn when
`node_id` is absent or falsy (the empty string is falsy in Python).
`Option` arguments model Python's `None` defaults, and `x or d` on a
dict/list is the emptiness test. -/
def mkNode (node_type name : String) (node_id : Option String)
    (type_version : Int) (parameters : Option JDict)
    (position : Option (List Int)) (credentials : Option JDict)
    (fresh : String) : Except SDKError Node :=
  if node_type == "" || pyStrip node_type == "" then
    .error ⟨.nodeError, "Node type cannot be empty", some ErrorCodes.NODE_INVALID_TYPE⟩
  else if name == "" || pyStrip name == "" then
    .error ⟨.nodeError, "Node name cannot be empty", some ErrorCodes.NODE_MISSING_REQUIRED_FIELD⟩
  else
    .ok { id := match node_id with
                | some s => if s == "" then fresh else s
                | none => fresh,
          type := pyStrip node_type,
          name := pyStrip name,
          type_version := type_version,
          parameters := match parameters with
                        | some p => if p.isEmpty then [] else p
                        | none => [],
          position := match position with
                      | some l => if l.isEmpty then [0, 0] else l
                      | none => [0, 0],
          credentials := match credentials with
                         | some c => if c.isEmpty then [] else c
                         | none => [] }

/-- A node-level document fragment: the dictionary produced by
`Node.to_dict` / consumed by `Node.from_dict`, with `none` marking an
absent key. -/
structure NodeDoc where
  id : Option String
  name : Option String
  type : Option String
  typeVersion : Option Int
  position : Option (List Int)
  parameters : Option JDict
  credentials : Option JDict

/-- `Node.to_dict`: emits all fields, but `credentials` only when
non-empty. -/
def Node.to_dict (n : Node) : NodeDoc :=
  { id := some n.id,
    name := some n.name,
    type := some n.type,
    typeVersion := some n.type_version,
    position := some n.position,
    parameters := some n.parameters,
    credentials := if n.credentials.isEmpty then none else some n.credentials }

/-- `Node.from_dict`: reads the document keys with their field-level
defaults and hands them to the constructor (`cls(...)` runs
`Node.__init__`, required-field checks included). -/
def Node.from_dict (data : NodeDoc) (fresh : String) : Except SDKError Node :=
  mkNode (data.type.getD "") (data.name.getD "") data.id
    (data.typeVersion.getD 1) (some (data.parameters.getD []))
    (some (data.position.getD [0, 0])) (some (data.credentials.getD [])) fresh

/-- `Node.validate`.  The checks that test Python dynamic types
(`isinstance(self.position, list)`, numeric coercibility of integer
coordinates, `isinstance(self.type_version, (int, float))`,
`isinstance(self.parameters, dict)`, `isinstance(self.credentials, dict)`)
always succeed on the typed embedding and contribute no error strings;
the remaining checks are modelled literally. -/
def Node.validate (n : Node) : List String :=
  (if n.id == "" then ["Node ID is required"] else []) ++
  (if n.name == "" then ["Node name is required"] else []) ++
  (if n.type == "" then ["Node type is required"] else []) ++
  (if n.position.length ≠ 2 then ["Position must be a list of 2 numbers"] else [])

/-- `Node.is_valid`. -/
def Node.is_valid (n : Node) : Bool :=
  n.validate.length == 0

/-! ## Workflow (`workflow.py`) -/

/-- A single connection record `{"node": ..., "type": ..., "index": ...}`
as built by `Workflow.connect`. -/
structure ConnRec where
  node : String
  type : String
  index : Int
  deriving DecidableEq, Repr

/-- One output slot: the ordered list of records fanning out of it. -/
abbrev Slot := List ConnRec

/-- The per-source map from output-port type to the dense list of output
slots. -/
abbrev PortMap := List (String × List Slot)

/-- The whole `connections` attribute: source node name → port map. -/
abbrev Conns := List (String × PortMap)

/-- The in-memory workflow object (`class Workflow`). -/
structure Workflow where
  id : String
  name : String
  nodes : List Node
  connections : Conns
  active : Bool
  settings : JDict
  tags : List String
  created_at : String
  updated_at : String

/-- `Workflow.__init__`.  `fresh` models `str(uuid.uuid4())` (used when
`workflow_id` is absent or falsy), `now` models
`datetime.now().isoformat()`. -/
def mkWorkflow (name : String) (workflow_id : Option String)
    (fresh now : String) : Except SDKError Workflow :=
  if name == "" || pyStrip name == "" then
    .error ⟨.workflowError, "Workflow name cannot be empty", some ErrorCodes.WORKFLOW_INVALID_NAME⟩
  else
    .ok { id := match workflow_id with
                | some s => if s == "" then fresh else s
                | none => fresh,
          name := pyStrip name,
          nodes := [],
          connections := [],
          active := true,
          settings := [],
          tags := [],
          created_at := now,
          updated_at := now }

/-- `Workflow.add_node`.  The `isinstance(node, Node)` guard always
passes on the typed embedding.  Returns the diagnostic events recorded
during the call together with the outcome. -/
def Workflow.add_node (w : Workflow) (node : Node) (now : String) :
    List LogEvent × Except SDKError Workflow :=
  if w.nodes.any (fun existing_node => existing_node.id == node.id) then
    let error_msg := "Node with ID '" ++ node.id ++ "' already exists in workflow"
    ([⟨.error, "Failed to add node to workflow '" ++ w.name ++ "': " ++ error_msg⟩],
     .error ⟨.workflowError, error_msg, some ErrorCodes.WORKFLOW_DUPLICATE_NODE⟩)
  else
    let warnings :=
      if w.nodes.any (fun existing_node => existing_node.name == node.name) then
        [⟨LogLevel.warning,
          "Adding node to workflow '" ++ w.name ++ "': Node with name '" ++
            node.name ++ "' already exists in workflow"⟩]
      else []
    (warnings ++
       [⟨LogLevel.debug,
         "Added node '" ++ node.name ++ "' to workflow '" ++ w.name ++ "'"⟩],
     .ok { w with nodes := w.nodes ++ [node], updated_at := now })

/-- The `while len(...) <= output_index: append([])` loop of
`Workflow.connect`: pad the slot list with empty slots until it has at
least `output_index + 1` entries. -/
def padSlots (slots : List Slot) (output_index : Nat) : List Slot :=
  slots ++ List.replicate (output_index + 1 - slots.length) []

/-- The source-side update of `Workflow.connect` (steps: ensure the
source entry, ensure the port-type entry, pad the slots, append the
record to slot `output_index`). -/
def connAddRecord (conns : Conns) (source_name output_type : String)
    (output_index : Nat) (rec : ConnRec) : Conns :=
  let pm := (alookup source_name conns).getD []
  let slots := (alookup output_type pm).getD []
  let padded := padSlots slots output_index
  let slots' := padded.set output_index (padded.getD output_index [] ++ [rec])
  aset source_name (aset output_type slots' pm) conns

/-- `Workflow.connect`.  Membership (`from_node not in self.nodes`) uses
Python's `in`, which compares with `Node.__eq__`, i.e. by id.
`output_index` is modelled as a natural number (the SDK and all claims
use non-negative slot indices). -/
def Workflow.connect (w : Workflow) (from_node to_node : Node)
    (output_type input_type : String) (output_index : Nat)
    (input_index : Int) (now : String) : Except SDKError Workflow :=
  if ¬ nodeElem from_node w.nodes then
    .error ⟨.workflowError,
      "Source node '" ++ from_node.name ++ "' is not in the workflow",
      some ErrorCodes.CONNECTION_SOURCE_NOT_FOUND⟩
  else if ¬ nodeElem to_node w.nodes then
    .error ⟨.workflowError,
      "Target node '" ++ to_node.name ++ "' is not in the workflow",
      some ErrorCodes.CONNECTION_TARGET_NOT_FOUND⟩
  else
    let connection : ConnRec :=
      { node := to_node.name, type := input_type, index := input_index }
    let conns := connAddRecord w.connections from_node.name output_type
      output_index connection
    -- Ensure target node has an empty connection placeholder if it
    -- doesn't exist (checked after the source-side update).
    let conns :=
      if (alookup to_node.name conns).isNone then
        aset to_node.name [("main", [[]])] conns
      else conns
    .ok { w with connections := conns, updated_at := now }

/-- `Workflow.validate`: collects the error strings in source order. -/
def Workflow.validate (w : Workflow) : List String :=
  let node_ids := w.nodes.map (·.id)
  let node_names := w.nodes.map (·.name)
  (if w.name == "" then ["Workflow name is required"] else []) ++
  (if w.nodes.isEmpty then ["Workflow must contain at least one node"] else []) ++
  (if node_ids.length ≠ node_ids.eraseDups.length then
     ["Duplicate node IDs found"] else []) ++
  (if node_names.length ≠ node_names.eraseDups.length then
     ["Duplicate node names found"] else []) ++
  (w.nodes.enum.flatMap fun p =>
     (p.2.validate).map fun e =>
       "Node " ++ toString (p.1 + 1) ++ " (" ++ p.2.name ++ "): " ++ e) ++
  (w.connections.flatMap fun sc =>
     (if node_names.contains sc.1 then []
      else ["Connection source '" ++ sc.1 ++ "' does not exist"]) ++
     (sc.2.flatMap fun og =>
        og.2.flatMap fun output_group =>
          output_group.flatMap fun connection =>
            -- every record built by the SDK is a dict with a 'node' key,
            -- so the `isinstance`/membership guards always pass
            if node_names.contains connection.node then []
            else ["Connection target '" ++ connection.node ++ "' does not exist"]))

/-- The top-level workflow document: the dictionary produced by
`Workflow.to_dict` / consumed by `Workflow.from_dict`, with `none`
marking an absent key. -/
structure WorkflowDoc where
  id : Option String
  name : Option String
  nodes : Option (List NodeDoc)
  connections : Option Conns
  active : Option Bool
  settings : Option JDict
  tags : Option (List String)
  createdAt : Option String
  updatedAt : Option String
  pinData : Option JDict
  metaInstanceId : Option String

/-- `Workflow.to_dict`. -/
def Workflow.to_dict (w : Workflow) : WorkflowDoc :=
  { id := some w.id,
    name := some w.name,
    nodes := some (w.nodes.map Node.to_dict),
    connections := some w.connections,
    active := some w.active,
    settings := some w.settings,
    tags := some w.tags,
    createdAt := some w.created_at,
    updatedAt := some w.updated_at,
    pinData := some [],
    metaInstanceId := some w.id }

/-- The `for node_data in nodes_data` import loop of
`Workflow.from_dict`: each fragment goes through `Node.from_dict` and a
raised exception propagates (aborting the remaining appends). -/
def importNodes : List NodeDoc → String → Except SDKError (List Node)
  | [], _ => .ok []
  | node_data :: rest, fresh => do
    let n ← Node.from_dict node_data fresh
    let ns ← importNodes rest fresh
    pure (n :: ns)

/-- `Workflow.from_dict`.  The constructor may fail (empty name);
node import runs `Node.from_dict` per fragment and propagates its
exceptions; nodes are appended directly to `nodes` and `connections` is
assigned verbatim, bypassing `add_node`/`connect` checks.  `fresh` is
the UUID source handed to the constructors; `now` the clock. -/
def Workflow.from_dict (data : WorkflowDoc) (fresh now : String) :
    Except SDKError Workflow := do
  let w ← mkWorkflow (data.name.getD "Imported Workflow") data.id fresh now
  let w := { w with
    active := data.active.getD true,
    settings := data.settings.getD [],
    tags := data.tags.getD [],
    created_at := data.createdAt.getD w.created_at,
    updated_at := data.updatedAt.getD w.updated_at }
  let ns ← importNodes (data.nodes.getD []) fresh
  pure { w with nodes := ns, connections := data.connections.getD [] }

/-- A file-system effect performed by `Workflow.export`, in program
order. -/
inductive FsEffect where
  | makedirs (dir : String)
  | write (path : String) (doc : WorkflowDoc) (pretty : Bool)

/-- `Workflow.export`, on the happy file-system path (no `IOError` from
the operating system, which the claims do not exercise).  `dir_path`
models `os.path.dirname(os.path.abspath(file_path))`.  Inside the `try`
block the code first creates the destination directory, then validates;
a raised `ValidationError` is caught by the final blanket
`except Exception` clause and re-raised as a generic `ExportError`
(message `"Export failed: " + str(e)`, no code) — the earlier
`except IOError` and `except (ValueError, TypeError)` clauses do not
match an `SDKError` subclass.  Returns the ordered file-system effects
together with the outcome. -/
def Workflow.export (w : Workflow) (file_path dir_path : String)
    (pretty validate : Bool) (now : String) :
    List FsEffect × Except SDKError Workflow :=
  let dirEffs : List FsEffect :=
    if dir_path == "" then [] else [.makedirs dir_path]
  if validate && !w.validate.isEmpty then
    let validation_errors := w.validate
    let error_msg :=
      "Workflow validation failed: " ++ String.intercalate ", " validation_errors
    let raised : SDKError :=
      ⟨.validationError, error_msg, some ErrorCodes.EXPORT_VALIDATION_ERROR⟩
    (dirEffs, .error ⟨.exportError, "Export failed: " ++ raised.str, none⟩)
  else
    (dirEffs ++ [.write file_path w.to_dict pretty],
     .ok { w with updated_at := now })

/-- `Workflow.connect` applied to a list of calls in order, failing on
the first failing call (a raised exception aborts the sequence). -/
structure ConnectArgs where
  from_node : Node
  to_node : Node
  output_type : String
  input_type : String
  output_index : Nat
  input_index : Int
  now : String

def runConnects (w : Workflow) : List ConnectArgs → Except SDKError Workflow
  | [] => .ok w
  | c :: rest => do
    let w' ← w.connect c.from_node c.to_node c.output_type c.input_type
      c.output_index c.input_index c.now
    runConnects w' rest

/-! ## Standalone document-structure checker
(`utils/json_parser.py`, `validate_workflow_structure`) -/

/-- The per-node checks of the `for i, node in enumerate(nodes)` loop
body: the node must be a dictionary with `id`, `name`, `type` (strings)
and `position` (a 2-element list). -/
def checkNodeDict (i : Nat) (node : JValue) : Except String Unit :=
  match node with
  | .obj fields =>
    let required_node_keys := ["id", "name", "type", "position"]
    let missing_node_keys := required_node_keys.filter
      (fun key => (alookup key fields).isNone)
    if ¬ missing_node_keys.isEmpty then
      .error ("Node " ++ toString i ++ " missing required keys")
    else
      match alookup "id" fields with
      | some (.str _) =>
        match alookup "name" fields with
        | some (.str _) =>
          match alookup "type" fields with
          | some (.str _) =>
            match alookup "position" fields with
            | some (.arr pos) =>
              if pos.length ≠ 2 then
                .error ("Node " ++ toString i ++ " position must be a list of 2 numbers")
              else .ok ()
            | _ => .error ("Node " ++ toString i ++ " position must be a list of 2 numbers")
          | _ => .error ("Node " ++ toString i ++ " type must be a string")
        | _ => .error ("Node " ++ toString i ++ " name must be a string")
      | _ => .error ("Node " ++ toString i ++ " id must be a string")
  | _ => .error ("Node " ++ toString i ++ " must be a dictionary")

/-- The `for i, node in enumerate(nodes)` loop: the first failing node
aborts the check. -/
def checkNodesList (i : Nat) : List JValue → Except String Unit
  | [] => .ok ()
  | node :: rest =>
    match checkNodeDict i node with
    | .error e => .error e
    | .ok _ => checkNodesList (i + 1) rest

/-- `node_names = {node["name"] for node in nodes}`: at this point every
node has already been verified to be a dictionary with a string `name`,
which is what the `filterMap` extracts. -/
def nodeNames (nodes : List JValue) : List String :=
  nodes.filterMap fun node =>
    match node with
    | .obj fields =>
      match alookup "name" fields with
      | some (.str s) => some s
      | _ => none
    | _ => none

/-- The innermost `for conn in conn_group` loop body: the record must be
a dictionary, carry a `node` key, and that key's value must be (a string)
among the node names — a non-string value never equals a string, so
`conn["node"] not in node_names` holds for it. -/
def checkConnRecList (node_names : List String) : List JValue → Except String Unit
  | [] => .ok ()
  | conn :: rest =>
    match conn with
    | .obj fields =>
      match alookup "node" fields with
      | none => .error "Connection missing 'node' key"
      | some v =>
        if (match v with
            | .str s => node_names.contains s
            | _ => false) then
          checkConnRecList node_names rest
        else .error "Connection target node not found in workflow nodes"
    | _ => .error "Connection must be a dictionary"

/-- The `for conn_group in main_connections` loop: a group that is not a
list is skipped (`continue`). -/
def checkConnGroups (node_names : List String) : List JValue → Except String Unit
  | [] => .ok ()
  | group :: rest =>
    match group with
    | .arr conns =>
      match checkConnRecList node_names conns with
      | .error e => .error e
      | .ok _ => checkConnGroups node_names rest
    | _ => checkConnGroups node_names rest

/-- The `for source_node, connection_data in connections.items()` loop:
the source key must name an existing node, its value must be a
dictionary, and its `"main"` entry — if present — must be a list whose
list-shaped groups pass the record checks.  Entries under other
port-type keys are never inspected. -/
def checkConnEntries (node_names : List String) :
    List (String × JValue) → Except String Unit
  | [] => .ok ()
  | (source_node, connection_data) :: rest =>
    if ¬ node_names.contains source_node then
      .error ("Connection source node '" ++ source_node ++
        "' not found in workflow nodes")
    else
      match connection_data with
      | .obj cd =>
        match alookup "main" cd with
        | some (.arr main_connections) =>
          match checkConnGroups node_names main_connections with
          | .error e => .error e
          | .ok _ => checkConnEntries node_names rest
        | some _ =>
          .error ("Main connections for '" ++ source_node ++ "' must be a list")
        | none => checkConnEntries node_names rest
      | _ =>
        .error ("Connection data for '" ++ source_node ++ "' must be a dictionary")

/-- `validate_workflow_structure(data)`: returns `True` or raises
`ValueError` (modelled as `Except.error` with the message). -/
def validate_workflow_structure (data : JValue) : Except String Bool :=
  match data with
  | .obj fields =>
    -- `missing_keys = [key for key in ["nodes", "connections"] if key not in data]`
    match alookup "nodes" fields, alookup "connections" fields with
    | some nodesV, some connsV =>
      match nodesV with
      | .arr nodes =>
        if nodes.isEmpty then
          .error "Workflow must contain at least one node"
        else
          match checkNodesList 0 nodes with
          | .error e => .error e
          | .ok _ =>
            match connsV with
            | .obj connections =>
              match checkConnEntries (nodeNames nodes) connections with
              | .error e => .error e
              | .ok _ => .ok true
            | _ => .error "Connections must be a dictionary"
      | _ => .error "Nodes must be a list"
    | _, _ => .error "Missing required keys in workflow"
  | _ => .error "Workflow data must be a dictionary"

/-! ## Construction invariants and reachability through the public API -/

/-- What `Node.__init__` guarantees about every node it returns: id
non-empty (caller-supplied truthy string or a UUID), name and type
stripped and non-empty, position never the empty list. -/
def NodeWF (n : Node) : Prop :=
  n.id ≠ "" ∧ pyStrip n.name = n.name ∧ n.name ≠ "" ∧
    pyStrip n.type = n.type ∧ n.type ≠ "" ∧ n.position ≠ []

/-- What the public builder API guarantees about a workflow: stripped
non-empty name, and every node in the collection came out of
`Node.__init__`. -/
def WorkflowWF (w : Workflow) : Prop :=
  pyStrip w.name = w.name ∧ w.name ≠ "" ∧ ∀ n ∈ w.nodes, NodeWF n

theorem mkNode_wf (node_type name : String) (node_id : Option String)
    (tv : Int) (ps : Option JDict) (pos : Option (List Int))
    (cr : Option JDict) (fresh : String) (n : Node) (hfresh : fresh ≠ "")
    (h : mkNode node_type name node_id tv ps pos cr fresh = .ok n) :
    NodeWF n := by
  unfold mkNode at h
  split at h
  · simp at h
  · split at h
    · simp at h
    · rename_i htype hname
      simp only [Bool.or_eq_true, beq_iff_eq, not_or] at htype hname
      injection h with h
      subst h
      refine ⟨?_, ?_, ?_, ?_, ?_, ?_⟩
      · cases node_id with
        | none => exact hfresh
        | some s =>
          by_cases hs : s == ""
          · simpa [hs] using hfresh
          · simp only [hs, if_false]
            simpa using hs
      · exact pyStrip_idem name
      · exact hname.2
      · exact pyStrip_idem node_type
      · exact htype.2
      · cases pos with
        | none => simp
        | some l =>
          by_cases hl : l.isEmpty
          · simp [hl]
          · simp only [hl, if_false]
            simpa [List.isEmpty_iff] using hl

theorem mkWorkflow_wf (name : String) (wid : Option String)
    (fresh now : String) (w : Workflow)
    (h : mkWorkflow name wid fresh now = .ok w) : WorkflowWF w := by
  unfold mkWorkflow at h
  split at h
  · simp at h
  · rename_i hname
    simp only [Bool.or_eq_true, beq_iff_eq, not_or] at hname
    injection h with h
    subst h
    exact ⟨pyStrip_idem name, hname.2, by simp⟩

theorem add_node_wf (w : Workflow) (n : Node) (now : String)
    (logs : List LogEvent) (w' : Workflow) (hw : WorkflowWF w)
    (hn : NodeWF n) (h : w.add_node n now = (logs, .ok w')) :
    WorkflowWF w' := by
  unfold Workflow.add_node at h
  split at h
  · simp at h
  · injection h with h1 h2
    injection h2 with h2
    subst h2
    refine ⟨hw.1, hw.2.1, ?_⟩
    intro m hm
    simp only [List.mem_append, List.mem_singleton] at hm
    rcases hm with hm | hm
    · exact hw.2.2 m hm
    · subst hm; exact hn

theorem connect_wf (w : Workflow) (a b : Node) (ot it : String)
    (oi : Nat) (ii : Int) (now : String) (w' : Workflow)
    (hw : WorkflowWF w)
    (h : w.connect a b ot it oi ii now = .ok w') : WorkflowWF w' := by
  unfold Workflow.connect at h
  split at h
  · simp at h
  · split at h
    · simp at h
    · injection h with h
      subst h
      exact ⟨hw.1, hw.2.1, hw.2.2⟩

theorem export_wf (w : Workflow) (fp dp : String) (pretty validate : Bool)
    (now : String) (effs : List FsEffect) (w' : Workflow)
    (hw : WorkflowWF w)
    (h : w.export fp dp pretty validate now = (effs, .ok w')) :
    WorkflowWF w' := by
  unfold Workflow.export at h
  split at h <;> split at h
  · simp at h
  · injection h with h1 h2
    injection h2 with h2
    subst h2
    exact ⟨hw.1, hw.2.1, hw.2.2⟩
  · simp at h
  · injection h with h1 h2
    injection h2 with h2
    subst h2
    exact ⟨hw.1, hw.2.1, hw.2.2⟩

/-- The workflows producible through the public builder API:
construction, `add_node` of constructor-built nodes, `connect`, and
successful `export`.  The `fresh ≠ ""` side conditions record that
`str(uuid.uuid4())` is never the empty string. -/
inductive Reachable : Workflow → Prop where
  | init (name : String) (wid : Option String) (fresh now : String)
      (w : Workflow) (h : mkWorkflow name wid fresh now = .ok w) :
      Reachable w
  | addNode (w : Workflow) (node_type nname : String)
      (node_id : Option String) (tv : Int) (ps : Option JDict)
      (pos : Option (List Int)) (cr : Option JDict) (fresh : String)
      (n : Node) (now : String) (logs : List LogEvent) (w' : Workflow)
      (hw : Reachable w) (hfresh : fresh ≠ "")
      (hn : mkNode node_type nname node_id tv ps pos cr fresh = .ok n)
      (h : w.add_node n now = (logs, .ok w')) : Reachable w'
  | connectStep (w : Workflow) (a b : Node) (ot it : String) (oi : Nat)
      (ii : Int) (now : String) (w' : Workflow) (hw : Reachable w)
      (h : w.connect a b ot it oi ii now = .ok w') : Reachable w'
  | exportStep (w : Workflow) (fp dp : String) (pretty validate : Bool)
      (now : String) (effs : List FsEffect) (w' : Workflow)
      (hw : Reachable w)
      (h : w.export fp dp pretty validate now = (effs, .ok w')) :
      Reachable w'

theorem reachable_wf (w : Workflow) (h : Reachable w) : WorkflowWF w := by
  induction h with
  | init name wid fresh now w h => exact mkWorkflow_wf name wid fresh now w h
  | addNode w nt nn nid tv ps pos cr fresh n now logs w' hw hfresh hn h ih =>
    exact add_node_wf w n now logs w' ih
      (mkNode_wf nt nn nid tv ps pos cr fresh n hfresh hn) h
  | connectStep w a b ot it oi ii now w' hw h ih =>
    exact connect_wf w a b ot it oi ii now w' ih h
  | exportStep w fp dp pretty validate now effs w' hw h ih =>
    exact export_wf w fp dp pretty validate now effs w' ih h

/-! ## Node round-trip -/

theorem node_from_to_dict (n : Node) (hn : NodeWF n) (fresh : String) :
    Node.from_dict n.to_dict fresh = .ok n := by
  cases n with
  | mk id type name tv params position creds =>
    obtain ⟨hid, hnamestrip, hname, htypestrip, htype, hpos⟩ := hn
    simp only at hid hnamestrip hname htypestrip htype hpos
    have hty : ¬ ((type == "" || pyStrip type == "") = true) := by
      simp [htype, htypestrip]
    have hnm : ¬ ((name == "" || pyStrip name == "") = true) := by
      simp [hname, hnamestrip]
    simp only [Node.from_dict, Node.to_dict, mkNode, Option.getD_some,
      hty, hnm, Bool.false_eq_true, if_false, Except.ok.injEq, Node.mk.injEq]
    refine ⟨?_, ?_, ?_, trivial, ?_, ?_, ?_⟩
    · simp only [beq_iff_eq]
      rw [if_neg hid]
    · exact htypestrip
    · exact hnamestrip
    · by_cases hp : params.isEmpty
      · rw [List.isEmpty_iff] at hp
        simp [hp]
      · simp [hp]
    · simp only [List.isEmpty_iff]
      rw [if_neg hpos]
    · by_cases hc : creds.isEmpty
      · rw [List.isEmpty_iff] at hc
        simp [hc]
      · simp [hc]

theorem importNodes_to_dict (l : List Node) (fresh : String)
    (h : ∀ n ∈ l, NodeWF n) :
    importNodes (l.map Node.to_dict) fresh = .ok l := by
  induction l with
  | nil => rfl
  | cons a l ih =>
    have ha := node_from_to_dict a (h a (by simp)) fresh
    have hl := ih (fun n hn => h n (by simp [hn]))
    simp only [importNodes, ha, hl]
    rfl

theorem workflow_from_to_dict (w : Workflow) (fresh now : String)
    (hw : WorkflowWF w) :
    Workflow.from_dict w.to_dict fresh now =
      .ok { w with id := if w.id == "" then fresh else w.id } := by
  obtain ⟨hstrip, hname, hnodes⟩ := hw
  have hcond : ¬ ((w.name == "" || pyStrip w.name == "") = true) := by
    simp [hname, hstrip]
  have hmap := importNodes_to_dict w.nodes fresh hnodes
  simp only [Workflow.from_dict, Workflow.to_dict, mkWorkflow, Option.getD_some,
    hcond, Bool.false_eq_true, if_false, hmap]
  rw [hstrip]
  rfl

/-! ## Helper lemmas about `connect` -/

/-- The workflow value produced by a successful `Workflow.connect` call
(the code after the membership checks). -/
def connectResult (w : Workflow) (from_node to_node : Node)
    (output_type input_type : String) (output_index : Nat)
    (input_index : Int) (now : String) : Workflow :=
  let conns := connAddRecord w.connections from_node.name output_type
    output_index { node := to_node.name, type := input_type, index := input_index }
  let conns :=
    if (alookup to_node.name conns).isNone then
      aset to_node.name [("main", [[]])] conns
    else conns
  { w with connections := conns, updated_at := now }

theorem connect_eq_ok (w : Workflow) (a b : Node) (ot it : String)
    (oi : Nat) (ii : Int) (now : String)
    (ha : nodeElem a w.nodes = true) (hb : nodeElem b w.nodes = true) :
    w.connect a b ot it oi ii now = .ok (connectResult w a b ot it oi ii now) := by
  unfold Workflow.connect connectResult
  simp [ha, hb]

theorem replicate_getD (n : Nat) (a d : α) :
    (List.replicate (n + 1) a).getD n d = a := by
  induction n with
  | zero => rfl
  | succ n ih => simpa [List.replicate_succ] using ih

theorem replicate_set (n : Nat) (a b : α) :
    (List.replicate (n + 1) a).set n b = List.replicate n a ++ [b] := by
  induction n with
  | zero => rfl
  | succ n ih =>
    rw [List.replicate_succ]
    show a :: (List.replicate (n + 1) a).set n b = List.replicate (n + 1) a ++ [b]
    rw [ih, List.replicate_succ]
    rfl

/-- A `connect` whose source has no prior `connections` entry creates a
dense slot list with `output_index` empty slots before the new record. -/
theorem connAddRecord_fresh (conns : Conns) (sn ot : String) (oi : Nat)
    (rec : ConnRec) (h : alookup sn conns = none) :
    connAddRecord conns sn ot oi rec =
      aset sn [(ot, List.replicate oi [] ++ [[rec]])] conns := by
  unfold connAddRecord padSlots
  rw [h]
  simp only [Option.getD_none, alookup, List.nil_append, List.length_nil,
    Nat.sub_zero, aset]
  rw [replicate_getD oi ([] : Slot) []]
  simp only [List.nil_append]
  rw [replicate_set oi ([] : Slot) [rec]]

theorem alookup_connAddRecord_ne (conns : Conns) (sn ot : String)
    (oi : Nat) (rec : ConnRec) (k : String) (h : k ≠ sn) :
    alookup k (connAddRecord conns sn ot oi rec) = alookup k conns := by
  unfold connAddRecord
  exact alookup_aset_ne sn k _ conns h

theorem alookup_connAddRecord_isSome (conns : Conns) (sn ot : String)
    (oi : Nat) (rec : ConnRec) (k : String)
    (h : (alookup k conns).isSome) :
    (alookup k (connAddRecord conns sn ot oi rec)).isSome := by
  unfold connAddRecord
  exact alookup_aset_isSome sn k _ conns h

/-- A successful `connect` never removes a `connections` key. -/
theorem connect_preserves_key (w : Workflow) (a b : Node) (ot it : String)
    (oi : Nat) (ii : Int) (now : String) (w' : Workflow) (k : String)
    (h : w.connect a b ot it oi ii now = .ok w')
    (hk : (alookup k w.connections).isSome) :
    (alookup k w'.connections).isSome := by
  unfold Workflow.connect at h
  split at h
  · simp at h
  · split at h
    · simp at h
    · injection h with h
      subst h
      simp only
      split
      · exact alookup_aset_isSome _ _ _ _
          (alookup_connAddRecord_isSome _ _ _ _ _ _ hk)
      · exact alookup_connAddRecord_isSome _ _ _ _ _ _ hk

/-- After a successful `connect`, the target node's name has a
`connections` entry. -/
theorem connect_target_key (w : Workflow) (a b : Node) (ot it : String)
    (oi : Nat) (ii : Int) (now : String) (w' : Workflow)
    (h : w.connect a b ot it oi ii now = .ok w') :
    (alookup b.name w'.connections).isSome := by
  unfold Workflow.connect at h
  split at h
  · simp at h
  · split at h
    · simp at h
    · injection h with h
      subst h
      simp only
      split
      · simp [alookup_aset_self]
      · rename_i hsome
        simpa [Option.isNone_iff_eq_none, ← Option.ne_none_iff_isSome] using hsome

/-! ## Concrete fixtures used by witnesses and counterexamples -/

/-- Fixture: a node named "A". -/
def nA : Node :=
  { id := "n1", type := "t", name := "A", type_version := 1,
    parameters := [], position := [0, 0], credentials := [] }

/-- Fixture: a node named "B". -/
def nB : Node :=
  { id := "n2", type := "t2", name := "B", type_version := 1,
    parameters := [], position := [0, 0], credentials := [] }

/-- Fixture: a fresh node object with `nA`'s id but a different name,
never added to any workflow. -/
def nAlias : Node :=
  { id := "n1", type := "t", name := "Alias", type_version := 1,
    parameters := [], position := [0, 0], credentials := [] }

/-- Fixture: a fresh node object with `nB`'s id but a different name. -/
def nBlias : Node :=
  { id := "n2", type := "t2", name := "Blias", type_version := 1,
    parameters := [], position := [0, 0], credentials := [] }

/-- Fixture: a node never added to any workflow (its id matches no
fixture workflow member). -/
def nGhost : Node :=
  { id := "n9", type := "t", name := "Ghost", type_version := 1,
    parameters := [], position := [0, 0], credentials := [] }

/-- Fixture: a node with `nA`'s name but a fresh id. -/
def nDupName : Node :=
  { id := "n2", type := "t2", name := "A", type_version := 1,
    parameters := [], position := [0, 0], credentials := [] }

/-- Fixture: a one-node workflow containing `nA`. -/
def wf1 : Workflow :=
  { id := "w1", name := "W", nodes := [nA], connections := [],
    active := true, settings := [], tags := [], created_at := "t0",
    updated_at := "t0" }

/-- Fixture: a two-node workflow containing `nA` and `nB`. -/
def wf2 : Workflow :=
  { id := "w1", name := "W", nodes := [nA, nB], connections := [],
    active := true, settings := [], tags := [], created_at := "t0",
    updated_at := "t0" }

theorem wf1_no_n9 : ¬ ∃ m ∈ wf1.nodes, m.id = "n9" := by
  rintro ⟨m, hm, hid⟩
  simp [wf1] at hm
  rw [hm] at hid
  exact absurd hid (by decide)

/-! ## The claims -/

/-- C9: for every `type` and `name` that are non-empty after stripping
surrounding whitespace, constructing a `Node` with all other arguments
at their defaults never fails (given a UUID string, which is never
empty), and `validate()` on the result returns the empty list. -/
theorem c9_construct_valid (node_type name fresh : String)
    (htype : pyStrip node_type ≠ "") (hname : pyStrip name ≠ "")
    (hfresh : fresh ≠ "") :
    ∃ n, mkNode node_type name none 1 none none none fresh = .ok n ∧
      n.validate = [] := by
  have ht0 : node_type ≠ "" := by
    intro h
    exact htype (by rw [h]; rfl)
  have hn0 : name ≠ "" := by
    intro h
    exact hname (by rw [h]; rfl)
  have hc1 : ¬ ((node_type == "" || pyStrip node_type == "") = true) := by
    simp [ht0, htype]
  have hc2 : ¬ ((name == "" || pyStrip name == "") = true) := by
    simp [hn0, hname]
  refine ⟨{ id := fresh, type := pyStrip node_type, name := pyStrip name,
            type_version := 1, parameters := [], position := [0, 0],
            credentials := [] }, ?_, ?_⟩
  · simp [mkNode, hc1, hc2]
  · simp [Node.validate, hfresh, htype, hname]

/-- C9 witness. -/
theorem c9_witness :
    pyStrip "n8n-nodes-base.httpRequest" ≠ "" ∧ pyStrip " Fetch " ≠ "" ∧
      ("aaaabbbb" : String) ≠ "" ∧
      ∃ n, mkNode "n8n-nodes-base.httpRequest" " Fetch " none 1 none none
        none "aaaabbbb" = .ok n ∧ n.validate = [] :=
  ⟨by decide, by decide, by decide,
    c9_construct_valid "n8n-nodes-base.httpRequest" " Fetch " "aaaabbbb"
      (by decide) (by decide) (by decide)⟩

/-- C2 counterexample: the claim says an inverse-mapped fragment with
absent/empty `name`/`type` still yields a `Node`; in the code
`Node.from_dict` calls the constructor, which raises `NodeError`. -/
theorem c2_counterexample :
    Node.from_dict ⟨none, none, none, none, none, none, none⟩ "u1" =
      .error ⟨.nodeError, "Node type cannot be empty",
        some ErrorCodes.NODE_INVALID_TYPE⟩ := rfl

/-- C2 (amended): `Node.from_dict` re-runs the construction-time
required-field checks via the constructor: a fragment whose `type` is
absent or empty fails with the invalid-type error, and one whose `type`
is present but whose `name` is absent or empty fails with the
missing-field error, rather than yielding a `Node`. -/
theorem c2_from_dict_rechecks (data : NodeDoc) (fresh : String) :
    (pyStrip (data.type.getD "") = "" →
      Node.from_dict data fresh =
        .error ⟨.nodeError, "Node type cannot be empty",
          some ErrorCodes.NODE_INVALID_TYPE⟩) ∧
    (pyStrip (data.type.getD "") ≠ "" → pyStrip (data.name.getD "") = "" →
      Node.from_dict data fresh =
        .error ⟨.nodeError, "Node name cannot be empty",
          some ErrorCodes.NODE_MISSING_REQUIRED_FIELD⟩) := by
  constructor
  · intro ht
    unfold Node.from_dict mkNode
    rw [if_pos]
    simp [ht]
  · intro ht hn
    have ht0 : data.type.getD "" ≠ "" := by
      intro h
      exact ht (by rw [h]; rfl)
    unfold Node.from_dict mkNode
    rw [if_neg (by simp [ht0, ht]), if_pos (by simp [hn])]

/-- C2 witness for the amended claim. -/
theorem c2_witness :
    (pyStrip ((⟨none, none, none, none, none, none, none⟩ : NodeDoc).type.getD "") = "" ∧
      Node.from_dict ⟨none, none, none, none, none, none, none⟩ "u1" =
        .error ⟨.nodeError, "Node type cannot be empty",
          some ErrorCodes.NODE_INVALID_TYPE⟩) ∧
    (pyStrip ((⟨none, none, some "t", none, none, none, none⟩ : NodeDoc).type.getD "") ≠ "" ∧
      Node.from_dict ⟨none, none, some "t", none, none, none, none⟩ "u1" =
        .error ⟨.nodeError, "Node name cannot be empty",
          some ErrorCodes.NODE_MISSING_REQUIRED_FIELD⟩) :=
  ⟨⟨by decide, (c2_from_dict_rechecks ⟨none, none, none, none, none, none, none⟩ "u1").1 (by decide)⟩,
   ⟨by decide, (c2_from_dict_rechecks ⟨none, none, some "t", none, none, none, none⟩ "u1").2
      (by decide) (by decide)⟩⟩

/-- C6: `add_node` fails with the duplicate-node code when a node with
the same id is already present (the failed call returns no updated
workflow, so the collection retains only the first), while a node whose
name duplicates an existing one is still appended with a warning-level
event recorded, not an error. -/
theorem c6_add_node_duplicates (w : Workflow) (node : Node) (now : String) :
    ((∃ m ∈ w.nodes, m.id = node.id) →
      (w.add_node node now).2 =
        .error ⟨.workflowError,
          "Node with ID '" ++ node.id ++ "' already exists in workflow",
          some ErrorCodes.WORKFLOW_DUPLICATE_NODE⟩) ∧
    ((¬ ∃ m ∈ w.nodes, m.id = node.id) → (∃ m ∈ w.nodes, m.name = node.name) →
      (w.add_node node now).2 =
        .ok { w with nodes := w.nodes ++ [node], updated_at := now } ∧
      ∃ e ∈ (w.add_node node now).1, e.level = .warning) := by
  have hidany : (w.nodes.any fun m => m.id == node.id) = true ↔
      ∃ m ∈ w.nodes, m.id = node.id := by
    simp [List.any_eq_true]
  have hnameany : (w.nodes.any fun m => m.name == node.name) = true ↔
      ∃ m ∈ w.nodes, m.name = node.name := by
    simp [List.any_eq_true]
  constructor
  · intro hdup
    unfold Workflow.add_node
    rw [if_pos (hidany.mpr hdup)]
  · intro hnodup hname
    unfold Workflow.add_node
    rw [if_neg (fun hc => hnodup (hidany.mp hc)),
      if_pos (hnameany.mpr hname)]
    refine ⟨rfl,
      ⟨⟨LogLevel.warning,
        "Adding node to workflow '" ++ w.name ++ "': Node with name '" ++
          node.name ++ "' already exists in workflow"⟩, ?_, rfl⟩⟩
    simp

/-- C6 witness: `wf1` exercising the duplicate-id failure (against a
node reusing id "n1"), and the duplicate-name warning path (against
`nDupName`). -/
theorem c6_witness :
    ((∃ m ∈ wf1.nodes, m.id = nAlias.id) ∧
      (wf1.add_node nAlias "t1").2 =
        .error ⟨.workflowError,
          "Node with ID '" ++ nAlias.id ++ "' already exists in workflow",
          some ErrorCodes.WORKFLOW_DUPLICATE_NODE⟩) ∧
    ((wf1.add_node nDupName "t1").2 =
        .ok { wf1 with nodes := wf1.nodes ++ [nDupName], updated_at := "t1" } ∧
      ∃ e ∈ (wf1.add_node nDupName "t1").1, e.level = .warning) := by
  constructor
  · exact ⟨⟨nA, by simp [wf1], rfl⟩,
      (c6_add_node_duplicates wf1 nAlias "t1").1 ⟨nA, by simp [wf1], rfl⟩⟩
  · refine (c6_add_node_duplicates wf1 nDupName "t1").2 ?_ ⟨nA, by simp [wf1], rfl⟩
    rintro ⟨m, hm, hid⟩
    simp [wf1] at hm
    rw [hm] at hid
    exact absurd hid (by decide)

/-- C7: `connect` when the source node is not present (by id equality)
fails with the source-not-found code; when the source is present but the
target is not, it fails with the target-not-found code.  A failing call
returns no updated workflow, so the caller's `connections` mapping is
unchanged. -/
theorem c7_connect_not_found (w : Workflow) (a b : Node) (ot it : String)
    (oi : Nat) (ii : Int) (now : String) :
    ((¬ ∃ m ∈ w.nodes, m.id = a.id) →
      w.connect a b ot it oi ii now =
        .error ⟨.workflowError,
          "Source node '" ++ a.name ++ "' is not in the workflow",
          some ErrorCodes.CONNECTION_SOURCE_NOT_FOUND⟩) ∧
    ((∃ m ∈ w.nodes, m.id = a.id) → (¬ ∃ m ∈ w.nodes, m.id = b.id) →
      w.connect a b ot it oi ii now =
        .error ⟨.workflowError,
          "Target node '" ++ b.name ++ "' is not in the workflow",
          some ErrorCodes.CONNECTION_TARGET_NOT_FOUND⟩) := by
  constructor
  · intro hsrc
    unfold Workflow.connect
    rw [if_pos]
    simp only [nodeElem_iff]
    exact hsrc
  · intro hsrc htgt
    unfold Workflow.connect
    rw [if_neg (by simp only [nodeElem_iff]; simpa using hsrc),
      if_pos (by simp only [nodeElem_iff]; exact htgt)]

/-- C7 witness: `wf1` and the never-added node `nGhost`, exercising
both failure directions. -/
theorem c7_witness :
    ((¬ ∃ m ∈ wf1.nodes, m.id = nGhost.id) ∧
      wf1.connect nGhost nA "main" "main" 0 0 "t1" =
        .error ⟨.workflowError, "Source node 'Ghost' is not in the workflow",
          some ErrorCodes.CONNECTION_SOURCE_NOT_FOUND⟩) ∧
    wf1.connect nA nGhost "main" "main" 0 0 "t1" =
      .error ⟨.workflowError, "Target node 'Ghost' is not in the workflow",
        some ErrorCodes.CONNECTION_TARGET_NOT_FOUND⟩ := by
  refine ⟨⟨wf1_no_n9, ?_⟩, ?_⟩
  · exact (c7_connect_not_found wf1 nGhost nA "main" "main" 0 0 "t1").1 wf1_no_n9
  · exact (c7_connect_not_found wf1 nA nGhost "main" "main" 0 0 "t1").2
      ⟨nA, by simp [wf1], rfl⟩ wf1_no_n9

/-- C10: membership in `connect` is decided by id-based `__eq__` alone:
any node object whose id matches some member is accepted as source or
target, even a distinct fresh object never added to the workflow, and
the created record then uses the fresh object's names. -/
theorem c10_connect_by_id_equality (w : Workflow) (src tgt : Node)
    (now : String) (hs : ∃ m ∈ w.nodes, m.id = src.id)
    (ht : ∃ m ∈ w.nodes, m.id = tgt.id)
    (hkey : alookup src.name w.connections = none) :
    ∃ w', w.connect src tgt "main" "main" 0 0 now = .ok w' ∧
      alookup src.name w'.connections =
        some [("main", [[{ node := tgt.name, type := "main", index := 0 }]])] := by
  have ha : nodeElem src w.nodes = true := (nodeElem_iff _ _).mpr hs
  have hb : nodeElem tgt w.nodes = true := (nodeElem_iff _ _).mpr ht
  refine ⟨_, connect_eq_ok w src tgt "main" "main" 0 0 now ha hb, ?_⟩
  unfold connectResult
  rw [connAddRecord_fresh _ _ _ _ _ hkey]
  dsimp only
  by_cases hnm : tgt.name = src.name
  · rw [hnm]
    rw [if_neg (by simp [alookup_aset_self])]
    exact alookup_aset_self _ _ _
  · split
    · rw [alookup_aset_ne tgt.name src.name _ _ (fun hh => hnm hh.symm)]
      exact alookup_aset_self _ _ _
    · exact alookup_aset_self _ _ _

/-- C10 witness: `wf1` contains `nA` (id "n1"); the fresh objects
`nAlias` (same id, name "Alias") — never added — is accepted as source,
and the record keys use the fresh names. -/
theorem c10_witness :
    (∃ m ∈ wf1.nodes, m.id = nAlias.id) ∧
    (∃ m ∈ wf1.nodes, m.id = nA.id) ∧
    alookup nAlias.name wf1.connections = none ∧
    ∃ w', wf1.connect nAlias nA "main" "main" 0 0 "t1" = .ok w' ∧
      alookup nAlias.name w'.connections =
        some [("main", [[{ node := "A", type := "main", index := 0 }]])] :=
  ⟨⟨nA, by simp [wf1], rfl⟩, ⟨nA, by simp [wf1], rfl⟩, rfl,
    c10_connect_by_id_equality wf1 nAlias nA "t1"
      ⟨nA, by simp [wf1], rfl⟩ ⟨nA, by simp [wf1], rfl⟩ rfl⟩

/-- C4: connecting A to B with `output_index = 2` when A has no prior
`connections` entry produces a dense three-slot sequence for A's output
port: slots 0 and 1 empty, slot 2 holding exactly the new record. -/
theorem c4_slot_gap_filling (w : Workflow) (A B : Node) (ot it : String)
    (ii : Int) (now : String) (hA : A ∈ w.nodes) (hB : B ∈ w.nodes)
    (hkey : alookup A.name w.connections = none) :
    ∃ w', w.connect A B ot it 2 ii now = .ok w' ∧
      alookup A.name w'.connections =
        some [(ot, [[], [], [{ node := B.name, type := it, index := ii }]])] := by
  have ha : nodeElem A w.nodes = true :=
    (nodeElem_iff _ _).mpr ⟨A, hA, rfl⟩
  have hb : nodeElem B w.nodes = true :=
    (nodeElem_iff _ _).mpr ⟨B, hB, rfl⟩
  refine ⟨_, connect_eq_ok w A B ot it 2 ii now ha hb, ?_⟩
  unfold connectResult
  rw [connAddRecord_fresh _ _ _ _ _ hkey]
  dsimp only
  by_cases hnm : B.name = A.name
  · rw [hnm]
    rw [if_neg (by simp [alookup_aset_self])]
    exact alookup_aset_self _ _ _
  · split
    · rw [alookup_aset_ne B.name A.name _ _ (fun hh => hnm hh.symm)]
      exact alookup_aset_self _ _ _
    · exact alookup_aset_self _ _ _

/-- C4 witness on `wf2`. -/
theorem c4_witness :
    nA ∈ wf2.nodes ∧ nB ∈ wf2.nodes ∧
    alookup nA.name wf2.connections = none ∧
    ∃ w', wf2.connect nA nB "main" "main" 2 0 "t1" = .ok w' ∧
      alookup nA.name w'.connections =
        some [("main", [[], [],
          [{ node := "B", type := "main", index := 0 }]])] :=
  ⟨by simp [wf2], by simp [wf2], rfl,
    c4_slot_gap_filling wf2 nA nB "main" "main" 0 "t1"
      (by simp [wf2]) (by simp [wf2]) rfl⟩

/-- Successful `runConnects` never loses a `connections` key. -/
theorem runConnects_preserves_key (calls : List ConnectArgs)
    (w w' : Workflow) (k : String) (h : runConnects w calls = .ok w')
    (hk : (alookup k w.connections).isSome) :
    (alookup k w'.connections).isSome := by
  induction calls generalizing w with
  | nil =>
    unfold runConnects at h
    injection h with h
    subst h
    exact hk
  | cons c rest ih =>
    unfold runConnects at h
    cases hc : w.connect c.from_node c.to_node c.output_type c.input_type
        c.output_index c.input_index c.now with
    | error e =>
      rw [hc] at h
      exact Except.noConfusion h
    | ok w1 =>
      rw [hc] at h
      exact ih w1 h
        (connect_preserves_key w c.from_node c.to_node c.output_type
          c.input_type c.output_index c.input_index c.now w1 k hc hk)

/-- After a successful sequence of `connect` calls, every call's target
name has an entry. -/
theorem runConnects_target (calls : List ConnectArgs) (w w' : Workflow)
    (h : runConnects w calls = .ok w') :
    ∀ c ∈ calls, (alookup c.to_node.name w'.connections).isSome := by
  induction calls generalizing w with
  | nil => simp
  | cons c0 rest ih =>
    intro c hc
    unfold runConnects at h
    cases hcc : w.connect c0.from_node c0.to_node c0.output_type
        c0.input_type c0.output_index c0.input_index c0.now with
    | error e =>
      rw [hcc] at h
      exact Except.noConfusion h
    | ok w1 =>
      rw [hcc] at h
      rcases List.mem_cons.mp hc with heq | hmem
      · subst heq
        exact runConnects_preserves_key rest w1 w' _ h
          (connect_target_key w c.from_node c.to_node c.output_type
            c.input_type c.output_index c.input_index c.now w1 hcc)
      · exact ih w1 h c hmem

/-- C5 (amended): after any successful sequence of `connect` calls,
every node that has been a connection target has an entry in
`connections`; and a single successful `connect` whose target name still
has no entry after the source-side update — in particular whenever the
target name differs from the source name and had no entry before the
call — seeds it with the single empty output-0 slot `{"main": [[]]}`. -/
theorem c5_target_entries (w : Workflow) :
    (∀ calls w', runConnects w calls = .ok w' →
      ∀ c ∈ calls, (alookup c.to_node.name w'.connections).isSome) ∧
    (∀ a b ot it oi ii now w',
      w.connect a b ot it oi ii now = .ok w' →
      alookup b.name w.connections = none → b.name ≠ a.name →
      alookup b.name w'.connections = some [("main", [[]])]) := by
  constructor
  · intro calls w' h c hc
    exact runConnects_target calls w w' h c hc
  · intro a b ot it oi ii now w' h hkey hnm
    unfold Workflow.connect at h
    split at h
    · simp at h
    · split at h
      · simp at h
      · injection h with h
        subst h
        simp only
        have hbn : alookup b.name
            (connAddRecord w.connections a.name ot oi
              { node := b.name, type := it, index := ii }) = none := by
          rw [alookup_connAddRecord_ne _ _ _ _ _ _ hnm]
          exact hkey
        rw [if_pos (by simp [hbn])]
        exact alookup_aset_self _ _ _

/-- C5 witness: the sequence Start→Fetch on `wf2` leaves entries for
both names, and the seeding of the never-source target "B". -/
theorem c5_witness :
    (runConnects wf2
        [⟨nA, nB, "main", "main", 0, 0, "t1"⟩] =
      .ok { wf2 with
        connections := [("A", [("main",
          [[{ node := "B", type := "main", index := 0 }]])]),
          ("B", [("main", [[]])])],
        updated_at := "t1" } ∧
      (alookup "B" ([("A", [("main",
          [[{ node := "B", type := "main", index := 0 }]])]),
          ("B", [("main", [[]])])] : Conns)).isSome = true) ∧
    (wf2.connect nA nB "main" "main" 0 0 "t1" =
      .ok { wf2 with
        connections := [("A", [("main",
          [[{ node := "B", type := "main", index := 0 }]])]),
          ("B", [("main", [[]])])],
        updated_at := "t1" } ∧
      alookup nB.name wf2.connections = none ∧ nB.name ≠ nA.name ∧
      alookup nB.name ([("A", [("main",
          [[{ node := "B", type := "main", index := 0 }]])]),
          ("B", [("main", [[]])])] : Conns) = some [("main", [[]])]) := by
  refine ⟨⟨rfl, ?_⟩, rfl, rfl, by decide, ?_⟩
  · have h := (c5_target_entries wf2).1
      [⟨nA, nB, "main", "main", 0, 0, "t1"⟩] _ rfl
      ⟨nA, nB, "main", "main", 0, 0, "t1"⟩ (by simp)
    exact h
  · have h := (c5_target_entries wf2).2 nA nB "main" "main" 0 0 "t1" _
      rfl rfl (by decide)
    exact h

/-- C5 counterexample: a self-connection.  `connections["A"]` did not
exist when `connect(A, A)` was called and the call succeeded, yet the
resulting entry is not the seeded placeholder `{"main": [[]]}` (the
target-seeding check runs only after the source-side update has already
created the entry). -/
theorem c5_counterexample :
    alookup nA.name wf1.connections = none ∧
    ∃ w', wf1.connect nA nA "main" "main" 0 0 "t1" = .ok w' ∧
      alookup nA.name w'.connections ≠ some [("main", [[]])] :=
  ⟨rfl, ⟨_, rfl, by decide⟩⟩

/-- Fixture: an empty workflow (as built by `Workflow("New Workflow",
"w1")` at time "t0" — no nodes yet). -/
def wfEmpty : Workflow :=
  { id := "w1", name := "New Workflow", nodes := [], connections := [],
    active := true, settings := [], tags := [], created_at := "t0",
    updated_at := "t0" }

/-- C1: evaluating `export` at the failing input.  The claim says a
failing validation aborts the export with kind ValidationFailed before
any file-system effect.  On the code, for a constructor-built workflow
whose validation fails (here: no nodes), `export` with `validate=True`
(1) has already created the destination directory before validating,
and (2) surfaces a generic `ExportError` with no code — the raised
`ValidationError` is swallowed by the blanket `except Exception` clause
— contradicting the function's own docstring, which promises
`ValidationError` propagates. -/
theorem c1_export_validation_not_before_io :
    mkWorkflow "New Workflow" (some "w1") "u0" "t0" = .ok wfEmpty ∧
    wfEmpty.validate = ["Workflow must contain at least one node"] ∧
    wfEmpty.export "workflow.json" "/abs" true true "t1" =
      ([FsEffect.makedirs "/abs"],
       .error ⟨.exportError,
         "Export failed: [EX003] Workflow validation failed: Workflow must contain at least one node",
         none⟩) :=
  ⟨rfl, rfl, rfl⟩

/-- C3: for every workflow reachable through the public builder API,
`from_dict (to_dict w)` succeeds and reproduces the name, active flag,
settings, tags, the node list exactly (hence node count and every
node's id, name, type, position and parameters), the connections
mapping, and both timestamps (which are always present in the
serialized document). -/
theorem c3_roundtrip (w : Workflow) (fresh now : String)
    (hw : Reachable w) :
    ∃ w', Workflow.from_dict w.to_dict fresh now = .ok w' ∧
      w'.name = w.name ∧ w'.active = w.active ∧ w'.settings = w.settings ∧
      w'.tags = w.tags ∧ w'.nodes = w.nodes ∧
      w'.connections = w.connections ∧
      w'.created_at = w.created_at ∧ w'.updated_at = w.updated_at :=
  ⟨_, workflow_from_to_dict w fresh now (reachable_wf w hw),
    rfl, rfl, rfl, rfl, rfl, rfl, rfl, rfl⟩

/-- Fixture: the empty workflow "Pipeline". -/
def demoW0 : Workflow :=
  { id := "w1", name := "Pipeline", nodes := [], connections := [],
    active := true, settings := [], tags := [], created_at := "t0",
    updated_at := "t0" }

/-- Fixture: the node "Start". -/
def demoStart : Node :=
  { id := "s1", type := "tA", name := "Start", type_version := 1,
    parameters := [], position := [0, 0], credentials := [] }

/-- Fixture: the node "Fetch". -/
def demoFetch : Node :=
  { id := "s2", type := "tB", name := "Fetch", type_version := 1,
    parameters := [], position := [0, 0], credentials := [] }

/-- Fixture: "Pipeline" after both nodes were added. -/
def demoW2 : Workflow :=
  { demoW0 with nodes := [demoStart, demoFetch], updated_at := "t2" }

/-- Fixture: "Pipeline" after connecting Start→Fetch. -/
def demoW3 : Workflow :=
  { id := "w1", name := "Pipeline", nodes := [demoStart, demoFetch],
    connections := [("Start", [("main",
      [[{ node := "Fetch", type := "main", index := 0 }]])]),
      ("Fetch", [("main", [[]])])],
    active := true, settings := [], tags := [], created_at := "t0",
    updated_at := "t3" }

theorem demoW3_reachable : Reachable demoW3 :=
  Reachable.connectStep demoW2 demoStart demoFetch "main" "main" 0 0 "t3"
    demoW3
    (Reachable.addNode _ "tB" "Fetch" (some "s2") 1 none none none "u2"
      demoFetch "t2" _ demoW2
      (Reachable.addNode _ "tA" "Start" (some "s1") 1 none none none "u1"
        demoStart "t1" _ _
        (Reachable.init "Pipeline" (some "w1") "u0" "t0" demoW0 (by rfl))
        (by decide) (by rfl) (by rfl))
      (by decide) (by rfl) (by rfl))
    (by rfl)

/-- C3 witness: the concrete two-node pipeline. -/
theorem c3_witness :
    Reachable demoW3 ∧
    ∃ w', Workflow.from_dict demoW3.to_dict "uf" "tf" = .ok w' ∧
      w'.name = demoW3.name ∧ w'.active = demoW3.active ∧
      w'.settings = demoW3.settings ∧ w'.tags = demoW3.tags ∧
      w'.nodes = demoW3.nodes ∧ w'.connections = demoW3.connections ∧
      w'.created_at = demoW3.created_at ∧
      w'.updated_at = demoW3.updated_at :=
  ⟨demoW3_reachable, c3_roundtrip demoW3 "uf" "tf" demoW3_reachable⟩

/-! ## C8: the standalone checker -/

/-- Whether a parsed JSON value is a dictionary carrying the
`connections` key. -/
def hasConnectionsKey : JValue → Bool
  | .obj fields => (alookup "connections" fields).isSome
  | _ => false

theorem checkConnRecList_ok_tail (names : List String) (conn : JValue)
    (rest : List JValue)
    (h : checkConnRecList names (conn :: rest) = .ok ()) :
    checkConnRecList names rest = .ok () := by
  cases conn with
  | obj fields =>
    simp only [checkConnRecList] at h
    split at h
    · simp at h
    · split at h
      · exact h
      · simp at h
  | null => simp [checkConnRecList] at h
  | bool b => simp [checkConnRecList] at h
  | num m => simp [checkConnRecList] at h
  | str s => simp [checkConnRecList] at h
  | arr xs => simp [checkConnRecList] at h

theorem checkConnRecList_ok_head (names : List String)
    (fs : List (String × JValue)) (rest : List JValue)
    (h : checkConnRecList names (.obj fs :: rest) = .ok ())
    (v : String) (hv : alookup "node" fs = some (.str v)) :
    names.contains v = true := by
  simp only [checkConnRecList, hv] at h
  split at h
  · rename_i hcond
    exact hcond
  · simp at h

theorem checkConnRecList_ok_mem (names : List String) (l : List JValue)
    (h : checkConnRecList names l = .ok ())
    (fs : List (String × JValue)) (hf : JValue.obj fs ∈ l)
    (v : String) (hv : alookup "node" fs = some (.str v)) :
    names.contains v = true := by
  induction l with
  | nil => simp at hf
  | cons conn rest ih =>
    rcases List.mem_cons.mp hf with heq | hmem
    · rw [← heq] at h
      exact checkConnRecList_ok_head names fs rest h v hv
    · exact ih (checkConnRecList_ok_tail names conn rest h) hmem

theorem checkConnGroups_ok_tail (names : List String) (g0 : JValue)
    (rest : List JValue)
    (h : checkConnGroups names (g0 :: rest) = .ok ()) :
    checkConnGroups names rest = .ok () := by
  cases g0 with
  | arr conns =>
    simp only [checkConnGroups] at h
    split at h
    · simp at h
    · exact h
  | null => simpa [checkConnGroups] using h
  | bool b => simpa [checkConnGroups] using h
  | num m => simpa [checkConnGroups] using h
  | str s => simpa [checkConnGroups] using h
  | obj fields => simpa [checkConnGroups] using h

theorem checkConnGroups_ok_head (names : List String)
    (conns : List JValue) (rest : List JValue)
    (h : checkConnGroups names (.arr conns :: rest) = .ok ()) :
    checkConnRecList names conns = .ok () := by
  simp only [checkConnGroups] at h
  split at h
  · simp at h
  · rename_i u hu
    cases u
    exact hu

theorem checkConnGroups_ok_mem (names : List String) (gs : List JValue)
    (h : checkConnGroups names gs = .ok ()) (g : List JValue)
    (hg : JValue.arr g ∈ gs) : checkConnRecList names g = .ok () := by
  induction gs with
  | nil => simp at hg
  | cons g0 rest ih =>
    rcases List.mem_cons.mp hg with heq | hmem
    · rw [← heq] at h
      exact checkConnGroups_ok_head names g rest h
    · exact ih (checkConnGroups_ok_tail names g0 rest h) hmem

theorem checkConnEntries_ok_tail (names : List String)
    (e0 : String × JValue) (rest : List (String × JValue))
    (h : checkConnEntries names (e0 :: rest) = .ok ()) :
    checkConnEntries names rest = .ok () := by
  obtain ⟨src, cd⟩ := e0
  simp only [checkConnEntries] at h
  split at h
  · simp at h
  · split at h
    · split at h
      · split at h
        · simp at h
        · exact h
      · simp at h
      · exact h
    · simp at h

theorem checkConnEntries_ok_main (names : List String) (src : String)
    (cdf : List (String × JValue)) (rest : List (String × JValue))
    (h : checkConnEntries names ((src, JValue.obj cdf) :: rest) = .ok ())
    (groups : List JValue)
    (hm : alookup "main" cdf = some (.arr groups)) :
    checkConnGroups names groups = .ok () := by
  simp only [checkConnEntries, hm] at h
  split at h
  · simp at h
  · split at h
    · simp at h
    · rename_i u hu
      cases u
      exact hu

theorem checkConnEntries_ok_mem (names : List String)
    (entries : List (String × JValue))
    (h : checkConnEntries names entries = .ok ())
    (src : String) (cdf : List (String × JValue))
    (hmem : (src, JValue.obj cdf) ∈ entries)
    (groups : List JValue)
    (hm : alookup "main" cdf = some (.arr groups)) :
    checkConnGroups names groups = .ok () := by
  induction entries with
  | nil => simp at hmem
  | cons e0 rest ih =>
    rcases List.mem_cons.mp hmem with heq | hmem'
    · rw [← heq] at h
      exact checkConnEntries_ok_main names src cdf rest h groups hm
    · exact ih (checkConnEntries_ok_tail names e0 rest h) hmem'

/-- A successful run of the whole checker entails a successful run of
the connection-entries loop. -/
theorem validate_ok_entries (fields : List (String × JValue))
    (nodes : List JValue) (conns : List (String × JValue)) (b : Bool)
    (hn : alookup "nodes" fields = some (.arr nodes))
    (hc : alookup "connections" fields = some (.obj conns))
    (h : validate_workflow_structure (.obj fields) = .ok b) :
    checkConnEntries (nodeNames nodes) conns = .ok () := by
  simp only [validate_workflow_structure, hn, hc] at h
  split at h
  · simp at h
  · cases hcn : checkNodesList 0 nodes with
    | error e =>
      rw [hcn] at h
      simp at h
    | ok u =>
      rw [hcn] at h
      cases hce : checkConnEntries (nodeNames nodes) conns with
      | error e =>
        rw [hce] at h
        simp at h
      | ok u2 =>
        cases u2
        rfl

/-- C8 (amended): the checker fails whenever the parsed value lacks the
`connections` key (including when it is not a dictionary at all), and it
fails whenever a connection record lying under the `"main"` port type,
inside a list-shaped slot, names a target string matching no node name.
Records under other port-type keys (and slots that are not lists) are
never inspected, so the original claim's "any connection record" is too
strong. -/
theorem c8_checker_rejects (data : JValue) :
    (hasConnectionsKey data = false →
      ∃ msg, validate_workflow_structure data = .error msg) ∧
    (∀ fields nodes conns src cdf groups g fs v,
      data = JValue.obj fields →
      alookup "nodes" fields = some (JValue.arr nodes) →
      alookup "connections" fields = some (JValue.obj conns) →
      (src, JValue.obj cdf) ∈ conns →
      alookup "main" cdf = some (JValue.arr groups) →
      JValue.arr g ∈ groups →
      JValue.obj fs ∈ g →
      alookup "node" fs = some (JValue.str v) →
      (nodeNames nodes).contains v = false →
      ∃ msg, validate_workflow_structure data = .error msg) := by
  constructor
  · intro hk
    cases data with
    | obj fields =>
      have hk' : (alookup "connections" fields).isSome = false := hk
      have hnone : alookup "connections" fields = none := by
        cases hx : alookup "connections" fields with
        | none => rfl
        | some v =>
          rw [hx] at hk'
          simp at hk'
      simp only [validate_workflow_structure, hnone]
      cases alookup "nodes" fields with
      | none => exact ⟨_, rfl⟩
      | some v => exact ⟨_, rfl⟩
    | null => exact ⟨_, rfl⟩
    | bool b => exact ⟨_, rfl⟩
    | num m => exact ⟨_, rfl⟩
    | str s => exact ⟨_, rfl⟩
    | arr xs => exact ⟨_, rfl⟩
  · intro fields nodes conns src cdf groups g fs v hdata hn hc hmem hm
      hgmem hfmem hv hcontains
    subst hdata
    cases hres : validate_workflow_structure (.obj fields) with
    | error msg => exact ⟨msg, rfl⟩
    | ok b =>
      exfalso
      have hent := validate_ok_entries fields nodes conns b hn hc hres
      have hgrp := checkConnEntries_ok_mem (nodeNames nodes) conns hent
        src cdf hmem groups hm
      have hrec := checkConnGroups_ok_mem (nodeNames nodes) groups hgrp
        g hgmem
      have htrue := checkConnRecList_ok_mem (nodeNames nodes) g hrec
        fs hfmem v hv
      rw [htrue] at hcontains
      exact absurd hcontains (by simp)

/-- Fixture: a node document fragment for node "A". -/
def nodeAJ : JValue :=
  .obj [("id", .str "n1"), ("name", .str "A"), ("type", .str "t"),
    ("position", .arr [.num 0, .num 0])]

/-- Fixture: a connection record targeting the non-existent "Ghost". -/
def ghostRec : JValue :=
  .obj [("node", .str "Ghost"), ("type", .str "main"), ("index", .num 0)]

/-- Fixture: a document whose only (dangling) connection record lies
under port type "aux", not "main". -/
def auxGhostDoc : JValue :=
  .obj [("nodes", .arr [nodeAJ]),
    ("connections", .obj [("A", .obj [("aux", .arr [.arr [ghostRec]])])])]

/-- Fixture: the same document with the dangling record under "main". -/
def mainGhostDoc : JValue :=
  .obj [("nodes", .arr [nodeAJ]),
    ("connections", .obj [("A", .obj [("main", .arr [.arr [ghostRec]])])])]

/-- Fixture: a document with no `connections` key. -/
def docNoConns : JValue :=
  .obj [("nodes", .arr [nodeAJ])]

/-- C8 counterexample: `auxGhostDoc` contains a connection record whose
`node` field names "Ghost", which matches no node name, yet the checker
accepts the document (it only inspects the `"main"` port type) — so the
claim's second half is false as stated. -/
theorem c8_counterexample :
    validate_workflow_structure auxGhostDoc = .ok true ∧
    alookup "node" [("node", JValue.str "Ghost"),
      ("type", JValue.str "main"), ("index", JValue.num 0)] =
      some (JValue.str "Ghost") ∧
    (nodeNames [nodeAJ]).contains "Ghost" = false :=
  ⟨rfl, rfl, rfl⟩

/-- C8 witness for the amended claim: the missing-key rejection and the
dangling-"main"-record rejection, both at concrete documents. -/
theorem c8_witness :
    (hasConnectionsKey docNoConns = false ∧
      ∃ msg, validate_workflow_structure docNoConns = .error msg) ∧
    ((nodeNames [nodeAJ]).contains "Ghost" = false ∧
      ∃ msg, validate_workflow_structure mainGhostDoc = .error msg) :=
  ⟨⟨rfl, (c8_checker_rejects docNoConns).1 rfl⟩,
   ⟨rfl, (c8_checker_rejects mainGhostDoc).2
      [("nodes", .arr [nodeAJ]),
        ("connections", .obj [("A", .obj [("main", .arr [.arr [ghostRec]])])])]
      [nodeAJ]
      [("A", .obj [("main", .arr [.arr [ghostRec]])])]
      "A"
      [("main", .arr [.arr [ghostRec]])]
      [.arr [ghostRec]]
      [ghostRec]
      [("node", .str "Ghost"), ("type", .str "main"), ("index", .num 0)]
      "Ghost"
      rfl rfl rfl (List.mem_singleton.mpr rfl) rfl
      (List.mem_singleton.mpr rfl) (List.mem_singleton.mpr rfl) rfl rfl⟩⟩

end N8n
